import Mathlib

/-!
Shallow embedding of the project-orchestration core of the IoT Workbench
extension, translated from src/src/Models/IoTWorkspaceProject.ts.

The class IoTWorkspaceProject drives a registry (componentList) of
heterogeneous components through the phases load, create, compile, upload,
provision and deploy.  Components themselves (IoTHub, CosmosDB,
StreamAnalyticsJob, AzureFunctions, the device classes) live in modules that
are not part of this repository snapshot; where their behaviour matters it is
modelled from the specification and marked as such.  External collaborators
(config store, file system, interactive prompts, azure session) are modelled
as explicit environment records, and each driver function additionally
returns the ordered trace of collaborator/component calls it performs, so
that sequencing claims can be stated.
-/

namespace IoTWorkspaceProject

/-- Modelled from the spec: the dependency kind enum of
AzureComponentConfig.DependencyType (module absent from the snapshot);
the spec gives the two kinds Input and Other. -/
inductive DependencyType
  | Input
  | Other
deriving DecidableEq, Repr

/-- Modelled from the spec: the ComponentType enum of
Interfaces/Component (module absent from the snapshot); the spec lists the
component kinds appearing in this project family. -/
inductive ComponentType
  | Device
  | IoTHub
  | IoTHubDevice
  | AzureFunctions
  | StreamAnalyticsJob
  | CosmosDB
deriving DecidableEq, Repr

/-- Modelled from the spec: a live component as the orchestration core sees
it — identity, type, resolved dependency edges (target component id and
kind) and the dynamically checked capability set.  The concrete component
classes are outside the snapshot; their behaviour (checkPrerequisites,
compile, upload, provision, deploy, create results) is supplied by the
environment records below. -/
structure Component where
  componentType : ComponentType
  id : String
  name : String
  dependencies : List (String × DependencyType) := []
  compilable : Bool := false
  uploadable : Bool := false
  provisionable : Bool := false
  deployable : Bool := false
deriving DecidableEq, Repr

/-- Result of a driver function: `ok b` models a returned boolean promise,
`thrown msg` models a thrown Error with the given message. -/
inductive Outcome
  | ok (value : Bool)
  | thrown (message : String)
deriving DecidableEq, Repr

/-- One observable call performed by a driver: component-level calls carry
the id of the component acted on. -/
inductive Call
  | checkPrereq (id : String)
  | compileAct (id : String)
  | uploadAct (id : String)
  | provisionAct (id : String)
  | deployAct (id : String)
  | azureLoginCheck
  | getResourceGroup
  | quickPick (id : String)
deriving DecidableEq, Repr

/-- Error message thrown by compile() when a component compile returns
false (IoTWorkspaceProject.ts line 314). -/
def compileFailMessage : String :=
  "Unable to compile the device code, please check output window for detail."

/-- Error message thrown by upload() when a component upload returns false
(IoTWorkspaceProject.ts line 333). -/
def uploadFailMessage : String :=
  "Unable to upload the sketch, please check output window for detail."

/-- Error message thrown by deploy() when a component deploy returns false
(IoTWorkspaceProject.ts line 464); it interpolates the component name. -/
def deployFailMessage (name : String) : String :=
  "The deployment of " ++ name ++ " failed."

/-- Error message thrown by provision() when the devicePath config key is
absent (IoTWorkspaceProject.ts line 345). -/
def nonWorkbenchProjectMessage : String :=
  "Cannot run IoT Device Workbench command in a non-IoTWorkbench project. Please initialize an IoT Device Workbench project first."

/-- Environment for the compile/upload/provision/deploy drivers: the results
of the component calls and collaborator queries they perform.  The
capability predicates canCompile etc. of IoTWorkbenchProjectBase (module
absent from the snapshot) are modelled from the spec as the capability
fields of Component. -/
structure PhaseEnv where
  prereq : Component → Bool
  compileRes : Component → Bool := fun _ => true
  uploadRes : Component → Bool := fun _ => true
  provisionRes : Component → Bool := fun _ => true
  deployRes : Component → Bool := fun _ => true
  confirmProvision : Component → Bool := fun _ => true
  confirmDeploy : Component → Bool := fun _ => true
  devicePath : Option String := some "Device"
  loginOk : Bool := true
  resourceGroup : Option String := some "rg"
  subscriptionId : Option String := some "sub"

/-- IoTWorkspaceProject.compile (lines 304-321): iterate the registry; for
each compilable component check prerequisites (returning false on failure),
run compile, and throw on a false compile result. -/
def compileList (env : PhaseEnv) : List Component → List Call × Outcome
  | [] => ([], .ok true)
  | item :: rest =>
    if item.compilable then
      if env.prereq item then
        if env.compileRes item then
          let r := compileList env rest
          (Call.checkPrereq item.id :: Call.compileAct item.id :: r.1, r.2)
        else
          ([Call.checkPrereq item.id, Call.compileAct item.id],
            .thrown compileFailMessage)
      else
        ([Call.checkPrereq item.id], .ok false)
    else
      compileList env rest

/-- IoTWorkspaceProject.upload (lines 323-340): same shape as compile with
the upload capability, action and error message. -/
def uploadList (env : PhaseEnv) : List Component → List Call × Outcome
  | [] => ([], .ok true)
  | item :: rest =>
    if item.uploadable then
      if env.prereq item then
        if env.uploadRes item then
          let r := uploadList env rest
          (Call.checkPrereq item.id :: Call.uploadAct item.id :: r.1, r.2)
        else
          ([Call.checkPrereq item.id, Call.uploadAct item.id],
            .thrown uploadFailMessage)
      else
        ([Call.checkPrereq item.id], .ok false)
    else
      uploadList env rest

/-- First pass of provision()/deploy() (lines 349-359 and 418-428): collect
the names of components with the given capability, checking prerequisites on
each; `none` means some prerequisite check returned false (the driver
returns false). -/
def precheckList (env : PhaseEnv) (cap : Component → Bool) :
    List Component → List Call × Option (List String)
  | [] => ([], some [])
  | item :: rest =>
    if cap item then
      if env.prereq item then
        let r := precheckList env cap rest
        (Call.checkPrereq item.id :: r.1,
          r.2.map (fun names => item.name :: names))
      else
        ([Call.checkPrereq item.id], none)
    else
      precheckList env cap rest

/-- Second pass of provision() (lines 383-411): per provisionable component
one quick-pick confirmation (undefined selection aborts with false), then
the provision action; a false action result shows a warning and returns
false. -/
def provisionLoop (env : PhaseEnv) : List Component → List Call × Outcome
  | [] => ([], .ok true)
  | item :: rest =>
    if item.provisionable then
      if env.confirmProvision item then
        if env.provisionRes item then
          let r := provisionLoop env rest
          (Call.quickPick item.id :: Call.provisionAct item.id :: r.1, r.2)
        else
          ([Call.quickPick item.id, Call.provisionAct item.id], .ok false)
      else
        ([Call.quickPick item.id], .ok false)
    else
      provisionLoop env rest

/-- Second pass of deploy() (lines 440-468): per deployable component one
quick-pick confirmation, then the deploy action; a false action result
throws an error naming the component. -/
def deployLoop (env : PhaseEnv) : List Component → List Call × Outcome
  | [] => ([], .ok true)
  | item :: rest =>
    if item.deployable then
      if env.confirmDeploy item then
        if env.deployRes item then
          let r := deployLoop env rest
          (Call.quickPick item.id :: Call.deployAct item.id :: r.1, r.2)
        else
          ([Call.quickPick item.id, Call.deployAct item.id],
            .thrown (deployFailMessage item.name))
      else
        ([Call.quickPick item.id], .ok false)
    else
      deployLoop env rest

/-- IoTWorkspaceProject.provision (lines 342-413): throw if the devicePath
config key is absent; first pass over the registry checking prerequisites of
provisionable components; return false if nothing is provisionable; call
checkAzureLogin (its boolean result is not consulted) and resolve the
resource group and subscription id, returning false if either is missing;
then the confirmation/action loop. -/
def provision (env : PhaseEnv) (componentList : List Component) :
    List Call × Outcome :=
  match env.devicePath with
  | none => ([], .thrown nonWorkbenchProjectMessage)
  | some _ =>
    let pre := precheckList env (fun c => c.provisionable) componentList
    match pre.2 with
    | none => (pre.1, .ok false)
    | some provisionItemList =>
      if provisionItemList.isEmpty then
        (pre.1, .ok false)
      else
        match env.resourceGroup, env.subscriptionId with
        | some _, some _ =>
          let r := provisionLoop env componentList
          (pre.1 ++ [Call.azureLoginCheck, Call.getResourceGroup] ++ r.1, r.2)
        | _, _ =>
          (pre.1 ++ [Call.azureLoginCheck, Call.getResourceGroup], .ok false)

/-- IoTWorkspaceProject.deploy (lines 415-473): first pass over the registry
checking prerequisites of deployable components; return false if nothing is
deployable; call checkAzureLogin (result stored but never used); then the
confirmation/action loop. -/
def deploy (env : PhaseEnv) (componentList : List Component) :
    List Call × Outcome :=
  let pre := precheckList env (fun c => c.deployable) componentList
  match pre.2 with
  | none => (pre.1, .ok false)
  | some deployItemList =>
    if deployItemList.isEmpty then
      (pre.1, .ok false)
    else
      let r := deployLoop env componentList
      (pre.1 ++ [Call.azureLoginCheck] ++ r.1, r.2)

/-- One dependency entry of a persisted component record: the id of the
component depended on and the dependency kind.  Modelled from the spec
(section 6): component config store entries carry
dependencies as id/type pairs (AzureComponentConfig is absent from the
snapshot). -/
structure DependencyConfig where
  id : String
  type : DependencyType
deriving DecidableEq, Repr

/-- One persisted component record of the component config store, as
returned by getSortedComponents.  Modelled from the spec (section 6):
an ordered list of type/id/dependencies entries.  The type is kept as a
string because load() switches on a string. -/
structure ComponentConfig where
  type : String
  id : String
  dependencies : List DependencyConfig := []
deriving DecidableEq, Repr

/-- Modelled from the spec: board id of the AZ3166 device class (class
absent from the snapshot); the exact string is irrelevant to the claims. -/
def az3166BoardId : String := "az3166"

/-- Modelled from the spec: board id of the IoT button device class. -/
def ioTButtonBoardId : String := "iotbutton"

/-- Modelled from the spec: board id of the ESP32 device class. -/
def esp32BoardId : String := "esp32"

/-- Modelled from the spec: board id of the Raspberry Pi device class, the
only board the create() path accepts. -/
def raspberryPiBoardId : String := "raspberrypi"

/-- The board ids load() recognises when constructing the device component
(IoTWorkspaceProject.ts lines 141-155); an unrecognised id simply yields no
device component. -/
def knownBoard (boardId : String) : Bool :=
  boardId = az3166BoardId || boardId = ioTButtonBoardId ||
  boardId = esp32BoardId || boardId = raspberryPiBoardId

/-- Modelled from the spec: the device component constructed by load() for a
recognised board id.  Device classes are absent from the snapshot; the
capability set of a device (compilable, uploadable) follows the spec. -/
def mkDevice (boardId : String) : Component :=
  { componentType := ComponentType.Device
    id := "device-" ++ boardId
    name := "Device"
    compilable := true
    uploadable := true }

/-- Modelled from the spec: id under which the IoTHubDevice component is
known; IoTHubDevice is never entered into the id map, so the value is
irrelevant to resolution. -/
def ioTHubDeviceId : String := "iothubdevice"

/-- Modelled from the spec: IoTHub component rehydrated from a persisted
record; load() restores the persisted id. -/
def mkIoTHub (id : String) : Component :=
  { componentType := ComponentType.IoTHub
    id := id
    name := "IoT Hub"
    provisionable := true }

/-- Modelled from the spec: the IoTHubDevice companion component pushed
alongside every IoTHub. -/
def mkIoTHubDevice : Component :=
  { componentType := ComponentType.IoTHubDevice
    id := ioTHubDeviceId
    name := "IoT Hub Device"
    provisionable := true }

/-- Modelled from the spec: AzureFunctions component with its function path
and resolved dependency edges; the load() resolver constructs it without
dependency arguments, the legacy branch with an IoTHub Input dependency. -/
def mkAzureFunctions (id : String) (functionPath : String)
    (dependencies : List (String × DependencyType)) : Component :=
  { componentType := ComponentType.AzureFunctions
    id := id
    name := "Azure Functions (" ++ functionPath ++ ")"
    dependencies := dependencies
    provisionable := true
    deployable := true }

/-- Modelled from the spec: StreamAnalyticsJob component with resolved
dependency edges. -/
def mkStreamAnalyticsJob (id : String)
    (dependencies : List (String × DependencyType)) : Component :=
  { componentType := ComponentType.StreamAnalyticsJob
    id := id
    name := "Stream Analytics Job"
    dependencies := dependencies
    provisionable := true
    deployable := true }

/-- Modelled from the spec: CosmosDB component with resolved dependency
edges. -/
def mkCosmosDB (id : String)
    (dependencies : List (String × DependencyType)) : Component :=
  { componentType := ComponentType.CosmosDB
    id := id
    name := "Cosmos DB"
    dependencies := dependencies
    provisionable := true }

/-- Dependency resolution of one record (IoTWorkspaceProject.ts lines
231-237 and 251-257): look each dependency id up in the id map built from
records already processed; throw on the first id that is absent. -/
def resolveDependencies (components : List (String × Component)) :
    List DependencyConfig → Except String (List (String × DependencyType))
  | [] => .ok []
  | dep :: rest =>
    match components.lookup dep.id with
    | none => .error ("Cannot find component with id " ++ dep.id ++ ".")
    | some c =>
      match resolveDependencies components rest with
      | .error e => .error e
      | .ok resolved => .ok ((c.id, dep.type) :: resolved)

/-- Outcome of the resolver loop of load(): continue normally, abort load
with false (AzureFunctions record without a functionPath config), or throw
(unresolved dependency or unsupported component type). -/
inductive LoadOutcome
  | proceed
  | abortFalse
  | threw (message : String)
deriving DecidableEq, Repr

/-- Result of the resolver loop: the components pushed onto componentList,
the final id map, and the outcome. -/
structure ResolveState where
  pushed : List Component
  map : List (String × Component)
  outcome : LoadOutcome
deriving Repr

/-- Environment of load(): workspace state, config keys and the persisted
records returned by getSortedComponents.  The prereq field records the
outcomes of checkPrerequisites; load() fires those calls without consulting
the results, so the field is (faithfully) never read. -/
structure LoadEnv where
  hasWorkspaceFolders : Bool := true
  devicePath : Option String := some "Device"
  workbenchFileExists : Bool := true
  projectConfigFileExists : Bool := true
  boardId : Option String := none
  projectType : Option String := some "Basic"
  functionPath : Option String := none
  componentConfigs : List ComponentConfig := []
  prereq : Component → Bool := fun _ => true

/-- The resolver loop of load() (IoTWorkspaceProject.ts lines 197-272): one
pass over the sorted persisted records, switching on the record type.  An
IoTHub record pushes the IoTHub and an extra IoTHubDevice (only the IoTHub
enters the id map); an AzureFunctions record aborts load with false when the
functionPath config key is absent and ignores its persisted dependency
entries; StreamAnalyticsJob and CosmosDB records resolve their dependency
entries against the id map of records already processed, throwing on an
unresolved id; an unknown record type throws. -/
def loadComponents (env : LoadEnv) (components : List (String × Component)) :
    List ComponentConfig → ResolveState
  | [] => ⟨[], components, .proceed⟩
  | cfg :: rest =>
    if cfg.type = "IoTHub" then
      let iotHub := mkIoTHub cfg.id
      let r := loadComponents env ((iotHub.id, iotHub) :: components) rest
      ⟨iotHub :: mkIoTHubDevice :: r.pushed, r.map, r.outcome⟩
    else if cfg.type = "AzureFunctions" then
      match env.functionPath with
      | none => ⟨[], components, .abortFalse⟩
      | some functionPath =>
        let functionApp := mkAzureFunctions cfg.id functionPath []
        let r :=
          loadComponents env ((functionApp.id, functionApp) :: components) rest
        ⟨functionApp :: r.pushed, r.map, r.outcome⟩
    else if cfg.type = "StreamAnalyticsJob" then
      match resolveDependencies components cfg.dependencies with
      | .error e => ⟨[], components, .threw e⟩
      | .ok dependencies =>
        let asa := mkStreamAnalyticsJob cfg.id dependencies
        let r := loadComponents env ((asa.id, asa) :: components) rest
        ⟨asa :: r.pushed, r.map, r.outcome⟩
    else if cfg.type = "CosmosDB" then
      match resolveDependencies components cfg.dependencies with
      | .error e => ⟨[], components, .threw e⟩
      | .ok dependencies =>
        let cosmosDB := mkCosmosDB cfg.id dependencies
        let r := loadComponents env ((cosmosDB.id, cosmosDB) :: components) rest
        ⟨cosmosDB :: r.pushed, r.map, r.outcome⟩
    else
      ⟨[], components,
        .threw ("Component not supported with type of " ++ cfg.type ++ ".")⟩

/-- Modelled from the spec: id of the IoTHub synthesized by the legacy
branch of load(); the class generates its own id, absent from the
snapshot. -/
def legacyIoTHubId : String := "iothub"

/-- Modelled from the spec: id of the AzureFunctions component synthesized
by the legacy branch of load(). -/
def legacyAzureFunctionsId : String := "azurefunctions"

/-- Result of load(): the final componentList, the trace of calls, and the
returned/thrown outcome. -/
structure LoadResult where
  componentList : List Component
  calls : List Call
  result : Outcome
deriving Repr

/-- IoTWorkspaceProject.load (lines 77-279): return false when the workspace
has no folders, the devicePath config key is absent, the workbench project
file or the project config file is missing, or boardId/projectType are
unset; push the device component for a recognised board; when the component
config store is absent or empty, synthesize the legacy registry (IoTHub,
IoTHubDevice and, when the functionPath config key is set, AzureFunctions
depending on the IoTHub); otherwise run the resolver loop over the persisted
records; finally fire checkPrerequisites on every component of the registry
without consulting the results and return true. -/
def load (env : LoadEnv) : LoadResult :=
  if env.hasWorkspaceFolders = false then ⟨[], [], .ok false⟩
  else
    match env.devicePath with
    | none => ⟨[], [], .ok false⟩
    | some _ =>
      if env.workbenchFileExists = false then ⟨[], [], .ok false⟩
      else if env.projectConfigFileExists = false then ⟨[], [], .ok false⟩
      else
        match env.boardId with
        | none => ⟨[], [], .ok false⟩
        | some boardId =>
          match env.projectType with
          | none => ⟨[], [], .ok false⟩
          | some _ =>
            let deviceComponents :=
              if knownBoard boardId then [mkDevice boardId] else []
            if env.componentConfigs.isEmpty then
              let iotHub := mkIoTHub legacyIoTHubId
              let functionApps :=
                match env.functionPath with
                | some functionPath =>
                  [mkAzureFunctions legacyAzureFunctionsId functionPath
                    [(legacyIoTHubId, DependencyType.Input)]]
                | none => []
              let componentList :=
                deviceComponents ++ [iotHub, mkIoTHubDevice] ++ functionApps
              ⟨componentList,
                componentList.map (fun c => Call.checkPrereq c.id), .ok true⟩
            else
              let r := loadComponents env [] env.componentConfigs
              let componentList := deviceComponents ++ r.pushed
              match r.outcome with
              | .threw e => ⟨componentList, [], .thrown e⟩
              | .abortFalse => ⟨componentList, [], .ok false⟩
              | .proceed =>
                ⟨componentList,
                  componentList.map (fun c => Call.checkPrereq c.id), .ok true⟩

/-- The local constants of IoTWorkspaceProject.ts (lines 53-61). -/
def deviceDefaultFolderName : String := "Device"

/-- Folder name of the functions component (constants, line 55). -/
def functionDefaultFolderName : String := "Functions"

/-- Folder name of the stream analytics component (constants, line 56). -/
def asaFolderName : String := "StreamAnalytics"

/-- Modelled from the spec: the ConfigKey names (constants module absent
from the snapshot); the spec names boardId, projectType, devicePath,
functionPath and asaPath. -/
def boardIdKey : String := "boardId"

/-- Modelled from the spec: the projectType config key. -/
def projectTypeKey : String := "projectType"

/-- Modelled from the spec: the devicePath config key. -/
def devicePathKey : String := "devicePath"

/-- Modelled from the spec: the functionPath config key. -/
def functionPathKey : String := "functionPath"

/-- Modelled from the spec: the asaPath config key. -/
def asaPathKey : String := "asaPath"

/-- Workspace-settings key prefixing, as in `IoTWorkbench.${ConfigKey…}`. -/
def workbenchKey (key : String) : String := "IoTWorkbench." ++ key

/-- The project template types create() switches on
(Interfaces/ProjectTemplate is absent from the snapshot; the members Basic,
IotHub, AzureFunctions and StreamAnalytics are the cases of the switch in
create()). -/
inductive TemplateType
  | Basic
  | IotHub
  | AzureFunctions
  | StreamAnalytics
deriving DecidableEq, Repr

/-- Modelled from the spec: the string value a template type serializes to
in the project config file. -/
def templateTypeName : TemplateType → String
  | .Basic => "Basic"
  | .IotHub => "IotHub"
  | .AzureFunctions => "AzureFunctions"
  | .StreamAnalytics => "StreamAnalytics"

/-- Error message thrown by create() when the root folder is missing
(IoTWorkspaceProject.ts line 482). -/
def rootMissingMessage : String :=
  "Unable to find the root path, please open the folder and initialize project again."

/-- Error message thrown by create() for an unsupported board id
(IoTWorkspaceProject.ts line 526). -/
def boardNotSupportedMessage : String :=
  "The specified board is not supported."

/-- Modelled from the spec: the RaspberryPiDevice component constructed by
create(); the only board class the create() path instantiates. -/
def raspberryPiDevice : Component :=
  { componentType := ComponentType.Device
    id := "device-" ++ raspberryPiBoardId
    name := "Raspberry Pi"
    compilable := true
    uploadable := true }

/-- Modelled from the spec: the IoTHub component constructed fresh by
create(); its id is generated at construction, fixed here. -/
def createIoTHub : Component :=
  { componentType := ComponentType.IoTHub
    id := "iothub-new"
    name := "IoT Hub"
    provisionable := true }

/-- Modelled from the spec: the CosmosDB component constructed fresh by
create(). -/
def createCosmosDB : Component :=
  { componentType := ComponentType.CosmosDB
    id := "cosmosdb-new"
    name := "Cosmos DB"
    provisionable := true }

/-- Modelled from the spec: the AzureFunctions component constructed fresh
by create(), depending on the fresh IoTHub with kind Input (lines
578-583). -/
def createAzureFunctions : Component :=
  { componentType := ComponentType.AzureFunctions
    id := "azurefunctions-new"
    name := "Azure Functions"
    dependencies := [(createIoTHub.id, DependencyType.Input)]
    provisionable := true
    deployable := true }

/-- The StreamAnalyticsJob component constructed fresh by create(),
depending on the fresh IoTHub with kind Input and the fresh CosmosDB with
kind Other (lines 631-642). -/
def createStreamAnalyticsJob : Component :=
  { componentType := ComponentType.StreamAnalyticsJob
    id := "streamanalyticsjob-new"
    name := "Stream Analytics Job"
    dependencies :=
      [(createIoTHub.id, DependencyType.Input),
       (createCosmosDB.id, DependencyType.Other)]
    provisionable := true
    deployable := true }

/-- The on-disk artifacts of create(), all located inside the project root
directory: the azure component config store, the per-component folders and
files, and the two descriptor files written at the end.  Deleting the root
removes them all. -/
structure FSState where
  rootExists : Bool := false
  configStoreExists : Bool := false
  deviceDirExists : Bool := false
  functionDirExists : Bool := false
  asaDirExists : Bool := false
  asaQueryFileExists : Bool := false
  workspaceFileExists : Bool := false
  projectConfigFileExists : Bool := false
deriving DecidableEq, Repr

/-- The file-system state after fs.removeSync on the project root (line
674): the root directory and everything inside it are gone. -/
def removedRoot : FSState :=
  { rootExists := false }

/-- The state create() builds up: file system, the in-memory componentList,
the in-memory workspace descriptor (folders and settings) and the in-memory
project config map; the two latter are only persisted after every component
create succeeded. -/
structure CreateState where
  fs : FSState := {}
  componentList : List Component := []
  workspaceFolders : List String := []
  workspaceSettings : List (String × String) := []
  projectConfig : List (String × String) := []
deriving DecidableEq, Repr

/-- Environment of create(): the existence of the root folder, the outcomes
of the component prerequisite checks and of the component create() calls
(which may return a boolean or throw), and the remote-extension state
consulted at the very end. -/
structure CreateEnv where
  rootExists : Bool := true
  prereq : Component → Bool := fun _ => true
  createRes : Component → Outcome := fun _ => Outcome.ok true
  isRemote : Bool := true
  remoteExtensionAvailable : Bool := true

/-- The component-level creation loop of create() (lines 670-681): run each
component create in registry order; a false result triggers the rollback in
the caller, a thrown error propagates. -/
def createComponentsLoop (createRes : Component → Outcome) :
    List Component → Outcome
  | [] => .ok true
  | c :: rest =>
    match createRes c with
    | .thrown e => .thrown e
    | .ok false => .ok false
    | .ok true => createComponentsLoop createRes rest

/-- The tail of create() after the registry is assembled (lines 670-748):
the component creation loop; on a false result delete the whole project root
and return false; on a throw propagate it unchanged; on success write the
workspace descriptor file and the project config file, then check the remote
extension, returning false when it is unavailable outside a remote
session. -/
def finishCreate (env : CreateEnv) (s : CreateState) :
    CreateState × Outcome :=
  match createComponentsLoop env.createRes s.componentList with
  | .thrown e => (s, .thrown e)
  | .ok false => ({ s with fs := removedRoot }, .ok false)
  | .ok true =>
    let s2 := { s with
      fs := { s.fs with
        workspaceFileExists := true, projectConfigFileExists := true } }
    if env.isRemote then (s2, .ok true)
    else if env.remoteExtensionAvailable then (s2, .ok true)
    else (s2, .ok false)

/-- IoTWorkspaceProject.create (lines 475-748): throw when the root folder
is missing; create the azure config store and the device folder and record
the Device workspace folder; throw for any board other than the Raspberry
Pi; check the device prerequisites (false aborts with false); store boardId
and devicePath in the workspace settings and boardId and projectType in the
project config, pushing the device component twice; expand the template type
into its cloud components, checking prerequisites before each push and
recording folders, settings and config entries; then run finishCreate. -/
def create (env : CreateEnv) (templateType : TemplateType) (boardId : String) :
    CreateState × Outcome :=
  if env.rootExists = false then
    ({ fs := { rootExists := false } }, .thrown rootMissingMessage)
  else
    let s1 : CreateState :=
      { fs := { rootExists := true, configStoreExists := true,
                deviceDirExists := true }
        workspaceFolders := [deviceDefaultFolderName] }
    if boardId = raspberryPiBoardId then
      if env.prereq raspberryPiDevice then
        let s2 := { s1 with
          workspaceSettings :=
            [(workbenchKey boardIdKey, boardId),
             (workbenchKey devicePathKey, deviceDefaultFolderName)]
          componentList := [raspberryPiDevice, raspberryPiDevice]
          projectConfig :=
            [(boardIdKey, boardId),
             (projectTypeKey, templateTypeName templateType)] }
        match templateType with
        | .Basic => finishCreate env s2
        | .IotHub =>
          if env.prereq createIoTHub then
            finishCreate env
              { s2 with componentList := s2.componentList ++ [createIoTHub] }
          else (s2, .ok false)
        | .AzureFunctions =>
          if env.prereq createIoTHub then
            let s3 := { s2 with
              fs := { s2.fs with functionDirExists := true }
              workspaceFolders :=
                s2.workspaceFolders ++ [functionDefaultFolderName] }
            if env.prereq createAzureFunctions then
              finishCreate env
                { s3 with
                  workspaceSettings := s3.workspaceSettings ++
                    [(workbenchKey functionPathKey, functionDefaultFolderName)]
                  projectConfig := s3.projectConfig ++
                    [(functionPathKey, functionDefaultFolderName)]
                  componentList := s3.componentList ++
                    [createIoTHub, createAzureFunctions] }
            else (s3, .ok false)
          else (s2, .ok false)
        | .StreamAnalytics =>
          if env.prereq createIoTHub then
            if env.prereq createCosmosDB then
              let s3 := { s2 with
                fs := { s2.fs with
                  asaDirExists := true, asaQueryFileExists := true } }
              if env.prereq createStreamAnalyticsJob then
                finishCreate env
                  { s3 with
                    workspaceFolders := s3.workspaceFolders ++ [asaFolderName]
                    workspaceSettings := s3.workspaceSettings ++
                      [(workbenchKey asaPathKey, asaFolderName)]
                    projectConfig := s3.projectConfig ++
                      [(asaPathKey, asaFolderName)]
                    componentList := s3.componentList ++
                      [createIoTHub, createCosmosDB, createStreamAnalyticsJob] }
              else (s3, .ok false)
            else (s2, .ok false)
          else (s2, .ok false)
      else (s1, .ok false)
    else (s1, .thrown boardNotSupportedMessage)

/-- The registry each template type expands to when every prerequisite check
passes: the device is pushed twice (lines 536 and 543), then the cloud
components of the template. -/
def templateComponents (templateType : TemplateType) : List Component :=
  [raspberryPiDevice, raspberryPiDevice] ++
  match templateType with
  | .Basic => []
  | .IotHub => [createIoTHub]
  | .AzureFunctions => [createIoTHub, createAzureFunctions]
  | .StreamAnalytics =>
    [createIoTHub, createCosmosDB, createStreamAnalyticsJob]

/-- The trace compile() produces on a prefix whose eligible components all
pass: one prerequisite check and one compile action per compilable
component, in registry order, nothing for the others. -/
def compileOkCalls : List Component → List Call
  | [] => []
  | c :: rest =>
    if c.compilable then
      Call.checkPrereq c.id :: Call.compileAct c.id :: compileOkCalls rest
    else compileOkCalls rest

/-- The trace upload() produces on a prefix whose eligible components all
pass. -/
def uploadOkCalls : List Component → List Call
  | [] => []
  | c :: rest =>
    if c.uploadable then
      Call.checkPrereq c.id :: Call.uploadAct c.id :: uploadOkCalls rest
    else uploadOkCalls rest

/-- The trace the second pass of provision() produces on a prefix whose
eligible components are all confirmed and succeed. -/
def provisionOkCalls : List Component → List Call
  | [] => []
  | c :: rest =>
    if c.provisionable then
      Call.quickPick c.id :: Call.provisionAct c.id :: provisionOkCalls rest
    else provisionOkCalls rest

/-- The trace the second pass of deploy() produces on a prefix whose
eligible components are all confirmed and succeed. -/
def deployOkCalls : List Component → List Call
  | [] => []
  | c :: rest =>
    if c.deployable then
      Call.quickPick c.id :: Call.deployAct c.id :: deployOkCalls rest
    else deployOkCalls rest

lemma compileList_append_ok (env : PhaseEnv) (l1 l2 : List Component)
    (h : ∀ x ∈ l1, x.compilable = true →
      env.prereq x = true ∧ env.compileRes x = true) :
    compileList env (l1 ++ l2) =
      (compileOkCalls l1 ++ (compileList env l2).1, (compileList env l2).2) := by
  induction l1 with
  | nil => simp [compileOkCalls]
  | cons c rest ih =>
    have ih' := ih (fun x hx => h x (List.mem_cons_of_mem c hx))
    by_cases hcap : c.compilable = true
    · obtain ⟨hp, hr⟩ := h c (List.mem_cons_self c rest) hcap
      simp [compileList, compileOkCalls, hcap, hp, hr, ih']
    · simp only [Bool.not_eq_true] at hcap
      simp [compileList, compileOkCalls, hcap, ih']

lemma uploadList_append_ok (env : PhaseEnv) (l1 l2 : List Component)
    (h : ∀ x ∈ l1, x.uploadable = true →
      env.prereq x = true ∧ env.uploadRes x = true) :
    uploadList env (l1 ++ l2) =
      (uploadOkCalls l1 ++ (uploadList env l2).1, (uploadList env l2).2) := by
  induction l1 with
  | nil => simp [uploadOkCalls]
  | cons c rest ih =>
    have ih' := ih (fun x hx => h x (List.mem_cons_of_mem c hx))
    by_cases hcap : c.uploadable = true
    · obtain ⟨hp, hr⟩ := h c (List.mem_cons_self c rest) hcap
      simp [uploadList, uploadOkCalls, hcap, hp, hr, ih']
    · simp only [Bool.not_eq_true] at hcap
      simp [uploadList, uploadOkCalls, hcap, ih']

lemma provisionLoop_append_ok (env : PhaseEnv) (l1 l2 : List Component)
    (h : ∀ x ∈ l1, x.provisionable = true →
      env.confirmProvision x = true ∧ env.provisionRes x = true) :
    provisionLoop env (l1 ++ l2) =
      (provisionOkCalls l1 ++ (provisionLoop env l2).1,
        (provisionLoop env l2).2) := by
  induction l1 with
  | nil => simp [provisionOkCalls]
  | cons c rest ih =>
    have ih' := ih (fun x hx => h x (List.mem_cons_of_mem c hx))
    by_cases hcap : c.provisionable = true
    · obtain ⟨hp, hr⟩ := h c (List.mem_cons_self c rest) hcap
      simp [provisionLoop, provisionOkCalls, hcap, hp, hr, ih']
    · simp only [Bool.not_eq_true] at hcap
      simp [provisionLoop, provisionOkCalls, hcap, ih']

lemma deployLoop_append_ok (env : PhaseEnv) (l1 l2 : List Component)
    (h : ∀ x ∈ l1, x.deployable = true →
      env.confirmDeploy x = true ∧ env.deployRes x = true) :
    deployLoop env (l1 ++ l2) =
      (deployOkCalls l1 ++ (deployLoop env l2).1, (deployLoop env l2).2) := by
  induction l1 with
  | nil => simp [deployOkCalls]
  | cons c rest ih =>
    have ih' := ih (fun x hx => h x (List.mem_cons_of_mem c hx))
    by_cases hcap : c.deployable = true
    · obtain ⟨hp, hr⟩ := h c (List.mem_cons_self c rest) hcap
      simp [deployLoop, deployOkCalls, hcap, hp, hr, ih']
    · simp only [Bool.not_eq_true] at hcap
      simp [deployLoop, deployOkCalls, hcap, ih']

lemma precheckList_all_ok (env : PhaseEnv) (cap : Component → Bool)
    (l : List Component)
    (h : ∀ x ∈ l, cap x = true → env.prereq x = true) :
    precheckList env cap l =
      ((l.filter cap).map (fun c => Call.checkPrereq c.id),
        some ((l.filter cap).map (fun c => c.name))) := by
  induction l with
  | nil => simp [precheckList]
  | cons c rest ih =>
    have ih' := ih (fun x hx => h x (List.mem_cons_of_mem c hx))
    by_cases hcap : cap c = true
    · have hp := h c (List.mem_cons_self c rest) hcap
      simp [precheckList, hcap, hp, ih', List.filter_cons]
    · simp only [Bool.not_eq_true] at hcap
      simp [precheckList, hcap, ih', List.filter_cons]

lemma createComponentsLoop_append_ok (f : Component → Outcome)
    (l1 l2 : List Component) (h : ∀ x ∈ l1, f x = Outcome.ok true) :
    createComponentsLoop f (l1 ++ l2) = createComponentsLoop f l2 := by
  induction l1 with
  | nil => simp
  | cons c rest ih =>
    have hc := h c (List.mem_cons_self c rest)
    simp [createComponentsLoop, hc,
      ih (fun x hx => h x (List.mem_cons_of_mem c hx))]

/-- The record types the resolver loop of load() supports; any other type
falls into the default case and throws. -/
def knownRecordType (t : String) : Bool :=
  (t == "IoTHub") || (t == "AzureFunctions") ||
  (t == "StreamAnalyticsJob") || (t == "CosmosDB")

/-- Front-to-back resolvability of a record list: every dependency id of a
record occurs among the ids of records appearing earlier (or among the
initially known ids). -/
def resolvableFrom (known : List String) : List ComponentConfig → Bool
  | [] => true
  | cfg :: rest =>
    cfg.dependencies.all (fun d => known.contains d.id) &&
    resolvableFrom (cfg.id :: known) rest

lemma string_beq_eq_decide (x k : String) : (x == k) = decide (x = k) := by
  by_cases h : x = k <;> simp [h]

lemma lookup_cons_isSome (x k : String) (v : Component)
    (m : List (String × Component)) :
    ((((k, v) :: m).lookup x).isSome) = ((x == k) || (m.lookup x).isSome) := by
  simp only [List.lookup]
  cases x == k <;> simp

lemma resolveDependencies_ok_of_isSome (m : List (String × Component))
    (deps : List DependencyConfig)
    (h : ∀ d ∈ deps, (m.lookup d.id).isSome = true) :
    ∃ l, resolveDependencies m deps = Except.ok l := by
  induction deps with
  | nil => exact ⟨[], rfl⟩
  | cons d rest ih =>
    have hd := h d (List.mem_cons_self d rest)
    obtain ⟨c, hc⟩ := Option.isSome_iff_exists.mp hd
    obtain ⟨l, hl⟩ := ih (fun x hx => h x (List.mem_cons_of_mem d hx))
    exact ⟨(c.id, d.type) :: l, by simp [resolveDependencies, hc, hl]⟩

lemma resolveDependencies_error_of_missing (m : List (String × Component)) :
    ∀ (deps : List DependencyConfig) (d : DependencyConfig), d ∈ deps →
    m.lookup d.id = none →
    ∃ e, resolveDependencies m deps = Except.error e := by
  intro deps
  induction deps with
  | nil => intro d hd _; cases hd
  | cons a rest ih =>
    intro d hd hmiss
    cases hla : m.lookup a.id with
    | none =>
      exact ⟨"Cannot find component with id " ++ a.id ++ ".",
        by simp [resolveDependencies, hla]⟩
    | some c =>
      rcases List.mem_cons.mp hd with h | h
      · rw [h] at hmiss; rw [hmiss] at hla; cases hla
      · obtain ⟨e, he⟩ := ih d h hmiss
        exact ⟨e, by simp [resolveDependencies, hla, he]⟩

lemma loadComponents_append (env : LoadEnv) (pre l2 : List ComponentConfig) :
    ∀ (m : List (String × Component)),
    (loadComponents env m pre).outcome = LoadOutcome.proceed →
    loadComponents env m (pre ++ l2) =
      ⟨(loadComponents env m pre).pushed ++
        (loadComponents env (loadComponents env m pre).map l2).pushed,
       (loadComponents env (loadComponents env m pre).map l2).map,
       (loadComponents env (loadComponents env m pre).map l2).outcome⟩ := by
  induction pre with
  | nil => intro m _; simp [loadComponents]
  | cons cfg rest ih =>
    intro m h
    by_cases h1 : cfg.type = "IoTHub"
    · simp only [List.cons_append, loadComponents, if_pos h1] at h ⊢
      simp only [List.append_eq] at h ⊢
      simp only [ih _ h]
    · by_cases h2 : cfg.type = "AzureFunctions"
      · cases hfp : env.functionPath with
        | none =>
          simp only [List.cons_append, loadComponents, if_neg h1, if_pos h2,
            hfp] at h
          simp at h
        | some fp =>
          simp only [List.cons_append, loadComponents, if_neg h1, if_pos h2,
            hfp] at h ⊢
          simp only [List.append_eq] at h ⊢
          simp only [ih _ h]
      · by_cases h3 : cfg.type = "StreamAnalyticsJob"
        · cases hr : resolveDependencies m cfg.dependencies with
          | error e =>
            simp only [List.cons_append, loadComponents, if_neg h1, if_neg h2,
              if_pos h3, hr] at h
            simp at h
          | ok deps =>
            simp only [List.cons_append, loadComponents, if_neg h1, if_neg h2,
              if_pos h3, hr] at h ⊢
            simp only [List.append_eq] at h ⊢
            simp only [ih _ h]
        · by_cases h4 : cfg.type = "CosmosDB"
          · cases hr : resolveDependencies m cfg.dependencies with
            | error e =>
              simp only [List.cons_append, loadComponents, if_neg h1,
                if_neg h2, if_neg h3, if_pos h4, hr] at h
              simp at h
            | ok deps =>
              simp only [List.cons_append, loadComponents, if_neg h1,
                if_neg h2, if_neg h3, if_pos h4, hr] at h ⊢
              simp only [List.append_eq] at h ⊢
              simp only [ih _ h]
          · simp only [List.cons_append, loadComponents, if_neg h1, if_neg h2,
              if_neg h3, if_neg h4] at h
            simp at h

lemma loadComponents_lookup (env : LoadEnv) (records : List ComponentConfig) :
    ∀ (m : List (String × Component)),
    (loadComponents env m records).outcome = LoadOutcome.proceed →
    ∀ x, (((loadComponents env m records).map.lookup x).isSome) =
      ((records.map (fun r => r.id)).contains x || (m.lookup x).isSome) := by
  induction records with
  | nil => intro m _ x; simp [loadComponents]
  | cons cfg rest ih =>
    intro m h x
    by_cases h1 : cfg.type = "IoTHub"
    · simp only [loadComponents, if_pos h1] at h ⊢
      rw [ih _ h x, lookup_cons_isSome]
      simp [mkIoTHub, List.contains_cons, string_beq_eq_decide, Bool.or_comm,
        Bool.or_left_comm, Bool.or_assoc]
    · by_cases h2 : cfg.type = "AzureFunctions"
      · cases hfp : env.functionPath with
        | none =>
          simp only [loadComponents, if_neg h1, if_pos h2, hfp] at h
          simp at h
        | some fp =>
          simp only [loadComponents, if_neg h1, if_pos h2, hfp] at h ⊢
          rw [ih _ h x, lookup_cons_isSome]
          simp [mkAzureFunctions, List.contains_cons, string_beq_eq_decide,
            Bool.or_comm, Bool.or_left_comm, Bool.or_assoc]
      · by_cases h3 : cfg.type = "StreamAnalyticsJob"
        · cases hr : resolveDependencies m cfg.dependencies with
          | error e =>
            simp only [loadComponents, if_neg h1, if_neg h2, if_pos h3,
              hr] at h
            simp at h
          | ok deps =>
            simp only [loadComponents, if_neg h1, if_neg h2, if_pos h3,
              hr] at h ⊢
            rw [ih _ h x, lookup_cons_isSome]
            simp [mkStreamAnalyticsJob, List.contains_cons,
              string_beq_eq_decide, Bool.or_comm, Bool.or_left_comm,
              Bool.or_assoc]
        · by_cases h4 : cfg.type = "CosmosDB"
          · cases hr : resolveDependencies m cfg.dependencies with
            | error e =>
              simp only [loadComponents, if_neg h1, if_neg h2, if_neg h3,
                if_pos h4, hr] at h
              simp at h
            | ok deps =>
              simp only [loadComponents, if_neg h1, if_neg h2, if_neg h3,
                if_pos h4, hr] at h ⊢
              rw [ih _ h x, lookup_cons_isSome]
              simp [mkCosmosDB, List.contains_cons, string_beq_eq_decide,
                Bool.or_comm, Bool.or_left_comm, Bool.or_assoc]
          · simp only [loadComponents, if_neg h1, if_neg h2, if_neg h3,
              if_neg h4] at h
            simp at h

lemma loadComponents_resolvable (env : LoadEnv) (records : List ComponentConfig) :
    ∀ (known : List String) (m : List (String × Component)),
    (∀ r ∈ records, knownRecordType r.type = true) →
    (∀ r ∈ records, r.type = "AzureFunctions" → env.functionPath.isSome = true) →
    resolvableFrom known records = true →
    (∀ x, known.contains x = true → (m.lookup x).isSome = true) →
    (loadComponents env m records).outcome = LoadOutcome.proceed ∧
    (loadComponents env m records).pushed.map (fun c => c.id) =
      records.flatMap
        (fun r =>
          if r.type = "IoTHub" then [r.id, ioTHubDeviceId] else [r.id]) := by
  induction records with
  | nil => intro known m _ _ _ _; simp [loadComponents]
  | cons cfg rest ih =>
    intro known m htypes hfn hres hknown
    have hresolvable : cfg.dependencies.all (fun d => known.contains d.id) = true ∧
        resolvableFrom (cfg.id :: known) rest = true := by
      simpa [resolvableFrom, Bool.and_eq_true] using hres
    have htypes' : ∀ r ∈ rest, knownRecordType r.type = true :=
      fun r hr => htypes r (List.mem_cons_of_mem cfg hr)
    have hfn' : ∀ r ∈ rest, r.type = "AzureFunctions" →
        env.functionPath.isSome = true :=
      fun r hr => hfn r (List.mem_cons_of_mem cfg hr)
    have hknown' : ∀ (c : Component), c.id = cfg.id →
        ∀ x, (cfg.id :: known).contains x = true →
        ((((c.id, c) :: m).lookup x).isSome) = true := by
      intro c hc x hx
      rw [lookup_cons_isSome]
      rw [List.contains_cons] at hx
      rcases Bool.or_eq_true_iff.mp hx with hx | hx
      · rw [hc, hx]; simp
      · rw [hknown x hx]; simp
    by_cases h1 : cfg.type = "IoTHub"
    · obtain ⟨ho, hp⟩ := ih (cfg.id :: known)
        (((mkIoTHub cfg.id).id, mkIoTHub cfg.id) :: m)
        htypes' hfn' hresolvable.2 (hknown' (mkIoTHub cfg.id) rfl)
      simp only [loadComponents, if_pos h1]
      refine ⟨by simpa using ho, ?_⟩
      simpa [if_pos h1, mkIoTHub, mkIoTHubDevice] using hp
    · by_cases h2 : cfg.type = "AzureFunctions"
      · obtain ⟨fp, hfp⟩ := Option.isSome_iff_exists.mp
          (hfn cfg (List.mem_cons_self cfg rest) h2)
        obtain ⟨ho, hp⟩ := ih (cfg.id :: known)
          (((mkAzureFunctions cfg.id fp []).id, mkAzureFunctions cfg.id fp []) :: m)
          htypes' hfn' hresolvable.2 (hknown' (mkAzureFunctions cfg.id fp []) rfl)
        simp only [loadComponents, if_neg h1, if_pos h2, hfp]
        refine ⟨by simpa using ho, ?_⟩
        simpa [if_neg h1, mkAzureFunctions] using hp
      · have hdeps : ∀ d ∈ cfg.dependencies, ((m.lookup d.id).isSome) = true := by
          intro d hd
          exact hknown d.id (List.all_eq_true.mp hresolvable.1 d hd)
        by_cases h3 : cfg.type = "StreamAnalyticsJob"
        · obtain ⟨deps, hok⟩ := resolveDependencies_ok_of_isSome m
            cfg.dependencies hdeps
          obtain ⟨ho, hp⟩ := ih (cfg.id :: known)
            (((mkStreamAnalyticsJob cfg.id deps).id,
              mkStreamAnalyticsJob cfg.id deps) :: m)
            htypes' hfn' hresolvable.2
            (hknown' (mkStreamAnalyticsJob cfg.id deps) rfl)
          simp only [loadComponents, if_neg h1, if_neg h2, if_pos h3, hok]
          refine ⟨by simpa using ho, ?_⟩
          simpa [if_neg h1, mkStreamAnalyticsJob] using hp
        · by_cases h4 : cfg.type = "CosmosDB"
          · obtain ⟨deps, hok⟩ := resolveDependencies_ok_of_isSome m
              cfg.dependencies hdeps
            obtain ⟨ho, hp⟩ := ih (cfg.id :: known)
              (((mkCosmosDB cfg.id deps).id, mkCosmosDB cfg.id deps) :: m)
              htypes' hfn' hresolvable.2
              (hknown' (mkCosmosDB cfg.id deps) rfl)
            simp only [loadComponents, if_neg h1, if_neg h2, if_neg h3,
              if_pos h4, hok]
            refine ⟨by simpa using ho, ?_⟩
            simpa [if_neg h1, mkCosmosDB] using hp
          · exfalso
            have := htypes cfg (List.mem_cons_self cfg rest)
            simp [knownRecordType, h1, h2, h3, h4] at this

lemma flatMap_expand_length (records : List ComponentConfig) :
    (records.flatMap
      (fun r =>
        if r.type = "IoTHub" then [r.id, ioTHubDeviceId] else [r.id])).length =
    records.length +
      (records.filter (fun r => r.type == "IoTHub")).length := by
  induction records with
  | nil => rfl
  | cons r rest ih =>
    by_cases h : r.type = "IoTHub" <;>
      simp [h, List.filter_cons, ih] <;> omega

/-- An environment for create() in which the root folder exists, every
prerequisite check passes, every component create succeeds, and the session
is remote. -/
def allOkCreateEnv : CreateEnv := {}

/-- An environment for load() with all default values. -/
def defaultLoadEnv : LoadEnv := {}

/-- A persisted record list consisting of a single IoTHub record. -/
def hubOnlyRecords : List ComponentConfig := [{ type := "IoTHub", id := "hub1" }]

/-- A single IoTHub record carrying a dependency entry whose id appears
nowhere. -/
def hubWithDanglingDep : ComponentConfig :=
  { type := "IoTHub", id := "hub1",
    dependencies := [{ id := "missing", type := DependencyType.Input }] }

/-- A record list exercising all resolver branches: an IoTHub, a CosmosDB
and a StreamAnalyticsJob depending on both. -/
def witnessRecords : List ComponentConfig :=
  [{ type := "IoTHub", id := "hub1" },
   { type := "CosmosDB", id := "cos1" },
   { type := "StreamAnalyticsJob", id := "asa1",
     dependencies := [{ id := "hub1", type := DependencyType.Input },
                      { id := "cos1", type := DependencyType.Other }] }]

/-- C1: for template type StreamAnalytics with the supported board, all
prerequisite checks passing, the claim expects the registry
[Device, IoTHub, CosmosDB, StreamAnalyticsJob].  Evaluating create() at
exactly this input shows that the code instead produces
[Device, Device, IoTHub, CosmosDB, StreamAnalyticsJob]: the device component
is pushed twice (lines 536 and 543), so its create() also runs twice in the
creation loop — a slip, since the registry is specified to be id-unique.
The remaining parts of the claim do hold at this input: the workspace
descriptor gains the folders Device and StreamAnalytics, the project config
gains boardId and asaPath entries, and the StreamAnalyticsJob depends on the
IoTHub with kind Input and on the CosmosDB with kind Other. -/
theorem create_streamAnalytics_registry_and_descriptor :
    (create allOkCreateEnv TemplateType.StreamAnalytics
        raspberryPiBoardId).1.componentList.map (fun c => c.componentType) =
      [ComponentType.Device, ComponentType.Device, ComponentType.IoTHub,
       ComponentType.CosmosDB, ComponentType.StreamAnalyticsJob] ∧
    (create allOkCreateEnv TemplateType.StreamAnalytics
        raspberryPiBoardId).2 = Outcome.ok true ∧
    (create allOkCreateEnv TemplateType.StreamAnalytics
        raspberryPiBoardId).1.workspaceFolders =
      [deviceDefaultFolderName, asaFolderName] ∧
    (create allOkCreateEnv TemplateType.StreamAnalytics
        raspberryPiBoardId).1.projectConfig =
      [(boardIdKey, raspberryPiBoardId), (projectTypeKey, "StreamAnalytics"),
       (asaPathKey, asaFolderName)] ∧
    createStreamAnalyticsJob.dependencies =
      [(createIoTHub.id, DependencyType.Input),
       (createCosmosDB.id, DependencyType.Other)] := by
  decide

/-- C3 counterexample: a list with one IoTHub record makes the resolver push
two components (the IoTHub plus an extra IoTHubDevice, lines 201-211), so
the registry size does not equal the record count as the claim states. -/
theorem resolver_record_count_counterexample :
    (loadComponents defaultLoadEnv [] hubOnlyRecords).outcome =
      LoadOutcome.proceed ∧
    (loadComponents defaultLoadEnv [] hubOnlyRecords).pushed.length = 2 ∧
    hubOnlyRecords.length = 1 ∧
    (loadComponents defaultLoadEnv [] hubOnlyRecords).pushed.map
      (fun c => c.componentType) =
      [ComponentType.IoTHub, ComponentType.IoTHubDevice] := by
  decide

/-- C3 (amended): over records of the four supported types whose dependency
ids all resolve against records appearing earlier, with the functionPath
config set whenever an AzureFunctions record occurs, the resolver completes
without aborting and produces a registry whose insertion order matches
record order except that every IoTHub record contributes an extra
IoTHubDevice immediately after its IoTHub; hence the registry size is the
record count plus the number of IoTHub records. -/
theorem resolver_order_and_size (env : LoadEnv)
    (records : List ComponentConfig)
    (htypes : ∀ r ∈ records, knownRecordType r.type = true)
    (hfn : ∀ r ∈ records, r.type = "AzureFunctions" →
      env.functionPath.isSome = true)
    (hres : resolvableFrom [] records = true) :
    (loadComponents env [] records).outcome = LoadOutcome.proceed ∧
    (loadComponents env [] records).pushed.map (fun c => c.id) =
      records.flatMap
        (fun r =>
          if r.type = "IoTHub" then [r.id, ioTHubDeviceId] else [r.id]) ∧
    (loadComponents env [] records).pushed.length =
      records.length +
        (records.filter (fun r => r.type == "IoTHub")).length := by
  obtain ⟨ho, hp⟩ := loadComponents_resolvable env records [] [] htypes hfn
    hres (by intro x hx; simp [List.contains] at hx)
  refine ⟨ho, hp, ?_⟩
  have hlen := congrArg List.length hp
  rw [List.length_map] at hlen
  rw [flatMap_expand_length] at hlen
  exact hlen

/-- Witness for the amended C3 at a concrete three-record descriptor. -/
theorem resolver_order_and_size_witness :
    (loadComponents defaultLoadEnv [] witnessRecords).outcome =
      LoadOutcome.proceed ∧
    (loadComponents defaultLoadEnv [] witnessRecords).pushed.map
      (fun c => c.id) =
      witnessRecords.flatMap
        (fun r =>
          if r.type = "IoTHub" then [r.id, ioTHubDeviceId] else [r.id]) ∧
    (loadComponents defaultLoadEnv [] witnessRecords).pushed.length =
      witnessRecords.length +
        (witnessRecords.filter (fun r => r.type == "IoTHub")).length :=
  resolver_order_and_size defaultLoadEnv witnessRecords (by decide)
    (by decide) (by decide)

/-- C4 counterexample: an IoTHub record containing a dependency entry whose
id never appears anywhere does not make the resolver throw — load() ignores
the dependency entries of IoTHub (and AzureFunctions) records, so the claim
as stated (quantified over every record) fails. -/
theorem unresolved_dependency_ignored_counterexample :
    (loadComponents defaultLoadEnv [] [hubWithDanglingDep]).outcome =
      LoadOutcome.proceed ∧
    (loadComponents defaultLoadEnv [] [hubWithDanglingDep]).pushed.length
      = 2 := by
  decide

/-- C4 (amended): for StreamAnalyticsJob and CosmosDB records — the record
types whose case in load() actually reads the persisted dependency entries —
a dependency id that has not appeared among the ids of earlier records makes
the resolver throw, regardless of the records that follow; the lookup is
performed against the id map built only from records already processed. -/
theorem unresolved_dependency_throws (env : LoadEnv)
    (pre : List ComponentConfig) (cfg : ComponentConfig)
    (rest : List ComponentConfig) (d : DependencyConfig)
    (hpre : (loadComponents env [] pre).outcome = LoadOutcome.proceed)
    (htype : cfg.type = "StreamAnalyticsJob" ∨ cfg.type = "CosmosDB")
    (hd : d ∈ cfg.dependencies)
    (hmiss : (pre.map (fun r => r.id)).contains d.id = false) :
    ∃ e, (loadComponents env [] (pre ++ cfg :: rest)).outcome =
      LoadOutcome.threw e := by
  have happ := loadComponents_append env pre (cfg :: rest) [] hpre
  have hlk := loadComponents_lookup env pre [] hpre d.id
  have hnone : ((loadComponents env [] pre).map.lookup d.id) = none := by
    cases hcase : (loadComponents env [] pre).map.lookup d.id with
    | none => rfl
    | some c =>
      rw [hcase] at hlk
      simp [List.lookup] at hlk
      simp at hmiss
      obtain ⟨a, ha, hae⟩ := hlk
      exact absurd hae (hmiss a ha)
  obtain ⟨e, he⟩ := resolveDependencies_error_of_missing
    (loadComponents env [] pre).map cfg.dependencies d hd hnone
  refine ⟨e, ?_⟩
  rw [happ]
  rcases htype with h3 | h4
  · have h1 : ¬ cfg.type = "IoTHub" := by rw [h3]; decide
    have h2 : ¬ cfg.type = "AzureFunctions" := by rw [h3]; decide
    simp only [loadComponents, if_neg h1, if_neg h2, if_pos h3, he]
  · have h1 : ¬ cfg.type = "IoTHub" := by rw [h4]; decide
    have h2 : ¬ cfg.type = "AzureFunctions" := by rw [h4]; decide
    have h3 : ¬ cfg.type = "StreamAnalyticsJob" := by rw [h4]; decide
    simp only [loadComponents, if_neg h1, if_neg h2, if_neg h3, if_pos h4, he]

/-- Witness for the amended C4: a StreamAnalyticsJob record referencing an
id that only appears in a later record still throws. -/
theorem unresolved_dependency_throws_witness :
    ∃ e, (loadComponents defaultLoadEnv []
      ([{ type := "IoTHub", id := "hub1" }] ++
        ({ type := "StreamAnalyticsJob", id := "asa1",
           dependencies := [{ id := "later", type := DependencyType.Input }] } ::
         [{ type := "IoTHub", id := "later" }]))).outcome =
      LoadOutcome.threw e :=
  unresolved_dependency_throws defaultLoadEnv
    [{ type := "IoTHub", id := "hub1" }]
    { type := "StreamAnalyticsJob", id := "asa1",
      dependencies := [{ id := "later", type := DependencyType.Input }] }
    [{ type := "IoTHub", id := "later" }]
    { id := "later", type := DependencyType.Input }
    (by decide) (Or.inl rfl) (by decide) (by decide)

/-- C9: the resolver is a pure function of the persisted records (and the
environment), so two runs over the same unchanged descriptor yield
registries with identical ordered ids and types and the same outcome. -/
theorem resolver_idempotent (env : LoadEnv) (m : List (String × Component))
    (records : List ComponentConfig) (r1 r2 : ResolveState)
    (h1 : loadComponents env m records = r1)
    (h2 : loadComponents env m records = r2) :
    r1.pushed.map (fun c => (c.id, c.componentType)) =
      r2.pushed.map (fun c => (c.id, c.componentType)) ∧
    r1.outcome = r2.outcome := by
  subst h1; subst h2; exact ⟨rfl, rfl⟩

/-- Witness for C9 at a concrete descriptor. -/
theorem resolver_idempotent_witness :
    (loadComponents defaultLoadEnv [] witnessRecords).pushed.map
      (fun c => (c.id, c.componentType)) =
      (loadComponents defaultLoadEnv [] witnessRecords).pushed.map
        (fun c => (c.id, c.componentType)) ∧
    (loadComponents defaultLoadEnv [] witnessRecords).outcome =
      (loadComponents defaultLoadEnv [] witnessRecords).outcome :=
  resolver_idempotent defaultLoadEnv [] witnessRecords
    (loadComponents defaultLoadEnv [] witnessRecords)
    (loadComponents defaultLoadEnv [] witnessRecords) rfl rfl

/-- The state create() has built when it reaches the component creation
loop with every prerequisite check passing: the registry of the template,
the recorded folders, settings and config entries, and the file system with
root, config store, device folder and the per-template folders present but
neither descriptor file written yet. -/
def preLoopState (templateType : TemplateType) (boardId : String) :
    CreateState :=
  let s2 : CreateState :=
    { fs := { rootExists := true, configStoreExists := true,
              deviceDirExists := true }
      workspaceFolders := [deviceDefaultFolderName]
      workspaceSettings :=
        [(workbenchKey boardIdKey, boardId),
         (workbenchKey devicePathKey, deviceDefaultFolderName)]
      componentList := [raspberryPiDevice, raspberryPiDevice]
      projectConfig :=
        [(boardIdKey, boardId),
         (projectTypeKey, templateTypeName templateType)] }
  match templateType with
  | .Basic => s2
  | .IotHub => { s2 with componentList := s2.componentList ++ [createIoTHub] }
  | .AzureFunctions =>
    { s2 with
      fs := { s2.fs with functionDirExists := true }
      workspaceFolders := s2.workspaceFolders ++ [functionDefaultFolderName]
      workspaceSettings := s2.workspaceSettings ++
        [(workbenchKey functionPathKey, functionDefaultFolderName)]
      projectConfig := s2.projectConfig ++
        [(functionPathKey, functionDefaultFolderName)]
      componentList := s2.componentList ++
        [createIoTHub, createAzureFunctions] }
  | .StreamAnalytics =>
    { s2 with
      fs := { s2.fs with asaDirExists := true, asaQueryFileExists := true }
      workspaceFolders := s2.workspaceFolders ++ [asaFolderName]
      workspaceSettings := s2.workspaceSettings ++
        [(workbenchKey asaPathKey, asaFolderName)]
      projectConfig := s2.projectConfig ++ [(asaPathKey, asaFolderName)]
      componentList := s2.componentList ++
        [createIoTHub, createCosmosDB, createStreamAnalyticsJob] }

lemma create_all_prereq (env : CreateEnv) (t : TemplateType)
    (hroot : env.rootExists = true) (hp : ∀ c, env.prereq c = true) :
    create env t raspberryPiBoardId =
      finishCreate env (preLoopState t raspberryPiBoardId) := by
  cases t <;> simp [create, preLoopState, hroot, hp]

lemma preLoopState_componentList (t : TemplateType) (b : String) :
    (preLoopState t b).componentList = templateComponents t := by
  cases t <;> rfl

lemma preLoopState_fs (t : TemplateType) (b : String) :
    (preLoopState t b).fs.rootExists = true ∧
    (preLoopState t b).fs.workspaceFileExists = false ∧
    (preLoopState t b).fs.projectConfigFileExists = false := by
  cases t <;> exact ⟨rfl, rfl, rfl⟩

lemma createComponentsLoop_first_false (f : Component → Outcome)
    (l1 : List Component) (c : Component) (l2 : List Component)
    (h : ∀ x ∈ l1, f x = Outcome.ok true) (hc : f c = Outcome.ok false) :
    createComponentsLoop f (l1 ++ c :: l2) = Outcome.ok false := by
  rw [createComponentsLoop_append_ok f l1 _ h]
  simp [createComponentsLoop, hc]

lemma createComponentsLoop_first_thrown (f : Component → Outcome)
    (l1 : List Component) (c : Component) (l2 : List Component) (e : String)
    (h : ∀ x ∈ l1, f x = Outcome.ok true) (hc : f c = Outcome.thrown e) :
    createComponentsLoop f (l1 ++ c :: l2) = Outcome.thrown e := by
  rw [createComponentsLoop_append_ok f l1 _ h]
  simp [createComponentsLoop, hc]

/-- C2: for every template expansion, root folder present and all
prerequisite checks passing, if the registry splits as l1 ++ c :: l2 with
every component of l1 creating successfully, then a false create result of c
makes create() delete the entire project root (so no part of the workspace
file, the project config file or the component config store remains on
disk — they all live inside the root) and return false, while a thrown
error of c propagates unchanged with no cleanup: the root is kept and the
two descriptor files were never written. -/
theorem create_rollback_and_throw (env : CreateEnv) (t : TemplateType)
    (l1 : List Component) (c : Component) (l2 : List Component)
    (hroot : env.rootExists = true)
    (hp : ∀ x, env.prereq x = true)
    (hsplit : templateComponents t = l1 ++ c :: l2)
    (hok : ∀ x ∈ l1, env.createRes x = Outcome.ok true) :
    (env.createRes c = Outcome.ok false →
      (create env t raspberryPiBoardId).2 = Outcome.ok false ∧
      (create env t raspberryPiBoardId).1.fs = removedRoot) ∧
    (∀ e, env.createRes c = Outcome.thrown e →
      (create env t raspberryPiBoardId).2 = Outcome.thrown e ∧
      (create env t raspberryPiBoardId).1.fs.rootExists = true ∧
      (create env t raspberryPiBoardId).1.fs.workspaceFileExists = false ∧
      (create env t raspberryPiBoardId).1.fs.projectConfigFileExists
        = false) := by
  rw [create_all_prereq env t hroot hp]
  have hcl : (preLoopState t raspberryPiBoardId).componentList =
      l1 ++ c :: l2 := by
    rw [preLoopState_componentList, hsplit]
  obtain ⟨hfs1, hfs2, hfs3⟩ := preLoopState_fs t raspberryPiBoardId
  constructor
  · intro hc
    have hloop := createComponentsLoop_first_false env.createRes l1 c l2 hok hc
    simp only [finishCreate, hcl, hloop]
    simp
  · intro e hc
    have hloop :=
      createComponentsLoop_first_thrown env.createRes l1 c l2 e hok hc
    simp only [finishCreate, hcl, hloop]
    simp [hfs1, hfs2, hfs3]

/-- A create environment whose device create is cancelled (returns false)
while everything else succeeds. -/
def falseDeviceCreateEnv : CreateEnv :=
  { createRes := fun c =>
      if c.componentType = ComponentType.Device then Outcome.ok false
      else Outcome.ok true }

/-- A create environment whose IoTHub create throws while everything else
succeeds. -/
def throwIoTHubCreateEnv : CreateEnv :=
  { createRes := fun c =>
      if c.componentType = ComponentType.IoTHub then Outcome.thrown "boom"
      else Outcome.ok true }

/-- Witness for C2: a cancelled device create on the Basic template rolls
the root back, and a throwing IoTHub create on the IotHub template
propagates without deletion. -/
theorem create_rollback_and_throw_witness :
    ((create falseDeviceCreateEnv TemplateType.Basic
        raspberryPiBoardId).2 = Outcome.ok false ∧
     (create falseDeviceCreateEnv TemplateType.Basic
        raspberryPiBoardId).1.fs = removedRoot) ∧
    ((create throwIoTHubCreateEnv TemplateType.IotHub
        raspberryPiBoardId).2 = Outcome.thrown "boom" ∧
     (create throwIoTHubCreateEnv TemplateType.IotHub
        raspberryPiBoardId).1.fs.rootExists = true ∧
     (create throwIoTHubCreateEnv TemplateType.IotHub
        raspberryPiBoardId).1.fs.workspaceFileExists = false ∧
     (create throwIoTHubCreateEnv TemplateType.IotHub
        raspberryPiBoardId).1.fs.projectConfigFileExists = false) :=
  ⟨(create_rollback_and_throw falseDeviceCreateEnv TemplateType.Basic
      [] raspberryPiDevice [raspberryPiDevice] rfl (fun _ => rfl)
      (by decide) (by decide)).1 (by decide),
   (create_rollback_and_throw throwIoTHubCreateEnv TemplateType.IotHub
      [raspberryPiDevice, raspberryPiDevice] createIoTHub [] rfl
      (fun _ => rfl) (by decide) (by decide)).2 "boom" (by decide)⟩

/-- C6: for a legacy project (empty or absent component config store) with
the functionPath config key set, and the preconditions of reaching the
legacy branch (workspace folders present, devicePath set, workbench project
file and project config file existing, boardId and projectType set), load()
appends [IoTHub, IoTHubDevice, AzureFunctions depending on the IoTHub with
kind Input] after the optional device component, fires checkPrerequisites on
every component of the registry without consulting any outcome (the env
prerequisite outcomes are unconstrained here), and returns true. -/
theorem legacy_load_synthesizes (env : LoadEnv) (dp fp bid pt : String)
    (hwf : env.hasWorkspaceFolders = true)
    (hdp : env.devicePath = some dp)
    (hwb : env.workbenchFileExists = true)
    (hpc : env.projectConfigFileExists = true)
    (hbid : env.boardId = some bid)
    (hpt : env.projectType = some pt)
    (hcfg : env.componentConfigs = [])
    (hfp : env.functionPath = some fp) :
    (load env).result = Outcome.ok true ∧
    (load env).componentList =
      (if knownBoard bid then [mkDevice bid] else []) ++
      [mkIoTHub legacyIoTHubId, mkIoTHubDevice,
       mkAzureFunctions legacyAzureFunctionsId fp
         [(legacyIoTHubId, DependencyType.Input)]] ∧
    (load env).calls =
      (load env).componentList.map (fun c => Call.checkPrereq c.id) := by
  simp [load, hwf, hdp, hwb, hpc, hbid, hpt, hcfg, hfp]

/-- A legacy load environment: recognised board, empty component config
store, functionPath set. -/
def legacyLoadEnv : LoadEnv :=
  { boardId := some az3166BoardId, functionPath := some "Functions" }

/-- Witness for C6 at a concrete legacy environment. -/
theorem legacy_load_synthesizes_witness :
    (load legacyLoadEnv).result = Outcome.ok true ∧
    (load legacyLoadEnv).componentList =
      (if knownBoard az3166BoardId then [mkDevice az3166BoardId] else []) ++
      [mkIoTHub legacyIoTHubId, mkIoTHubDevice,
       mkAzureFunctions legacyAzureFunctionsId "Functions"
         [(legacyIoTHubId, DependencyType.Input)]] ∧
    (load legacyLoadEnv).calls =
      (load legacyLoadEnv).componentList.map
        (fun c => Call.checkPrereq c.id) :=
  legacy_load_synthesizes legacyLoadEnv "Device" "Functions" az3166BoardId
    "Basic" rfl rfl rfl rfl rfl rfl rfl rfl

/-- C10: with the devicePath config key absent, provision() throws its
descriptive error before any capability filtering, prerequisite check or
component action (its call trace is empty), whereas load() in the same
situation returns false. -/
theorem provision_throws_load_false_without_devicepath
    (envP : PhaseEnv) (envL : LoadEnv) (componentList : List Component)
    (hp : envP.devicePath = none)
    (hl : envL.devicePath = none)
    (hw : envL.hasWorkspaceFolders = true) :
    provision envP componentList =
      ([], Outcome.thrown nonWorkbenchProjectMessage) ∧
    load envL = ⟨[], [], Outcome.ok false⟩ := by
  constructor
  · simp [provision, hp]
  · simp [load, hw, hl]

/-- A phase environment with the devicePath config key absent. -/
def noDevicePathPhaseEnv : PhaseEnv :=
  { prereq := fun _ => true, devicePath := none }

/-- A load environment with the devicePath config key absent. -/
def noDevicePathLoadEnv : LoadEnv := { devicePath := none }

/-- Witness for C10 at concrete environments and a one-component
registry. -/
theorem provision_throws_load_false_without_devicepath_witness :
    provision noDevicePathPhaseEnv [mkIoTHub legacyIoTHubId] =
      ([], Outcome.thrown nonWorkbenchProjectMessage) ∧
    load noDevicePathLoadEnv = ⟨[], [], Outcome.ok false⟩ :=
  provision_throws_load_false_without_devicepath noDevicePathPhaseEnv
    noDevicePathLoadEnv [mkIoTHub legacyIoTHubId] rfl rfl rfl

lemma provision_unfold (env : PhaseEnv) (componentList : List Component)
    (dp : String) (hdp : env.devicePath = some dp)
    (hp : ∀ x ∈ componentList, x.provisionable = true → env.prereq x = true)
    (hne : componentList.filter (fun c => c.provisionable) ≠ []) :
    provision env componentList =
      match env.resourceGroup, env.subscriptionId with
      | some _, some _ =>
        ((componentList.filter (fun c => c.provisionable)).map
            (fun c => Call.checkPrereq c.id) ++
          [Call.azureLoginCheck, Call.getResourceGroup] ++
          (provisionLoop env componentList).1,
         (provisionLoop env componentList).2)
      | _, _ =>
        ((componentList.filter (fun c => c.provisionable)).map
            (fun c => Call.checkPrereq c.id) ++
          [Call.azureLoginCheck, Call.getResourceGroup],
         Outcome.ok false) := by
  have hpre := precheckList_all_ok env (fun c => c.provisionable)
    componentList hp
  have hnames : ((componentList.filter (fun c => c.provisionable)).map
      (fun c => c.name)).isEmpty = false := by
    rw [List.isEmpty_eq_false]
    intro hmap
    exact hne (List.map_eq_nil_iff.mp hmap)
  cases hrg : env.resourceGroup <;> cases hsub : env.subscriptionId <;>
    simp [provision, hdp, hpre, hnames, hrg, hsub]

lemma deploy_unfold (env : PhaseEnv) (componentList : List Component)
    (hp : ∀ x ∈ componentList, x.deployable = true → env.prereq x = true)
    (hne : componentList.filter (fun c => c.deployable) ≠ []) :
    deploy env componentList =
      ((componentList.filter (fun c => c.deployable)).map
          (fun c => Call.checkPrereq c.id) ++
        [Call.azureLoginCheck] ++ (deployLoop env componentList).1,
       (deployLoop env componentList).2) := by
  have hpre := precheckList_all_ok env (fun c => c.deployable)
    componentList hp
  have hnames : ((componentList.filter (fun c => c.deployable)).map
      (fun c => c.name)).isEmpty = false := by
    rw [List.isEmpty_eq_false]
    intro hmap
    exact hne (List.map_eq_nil_iff.mp hmap)
  simp [deploy, hpre, hnames]

/-- C5: compile() and upload() iterate the registry in order and invoke the
phase action only on components with the matching capability — on a registry
whose eligible components all pass, the trace is exactly one prerequisite
check followed by one action per eligible component in registry order,
skipped components contributing nothing (last two conjuncts).  When the
first eligible component whose prerequisite check returns false is reached —
all earlier eligible components having passed their checks and actions — the
phase returns false immediately after that check: no phase action is invoked
on that component or on any later one (first two conjuncts). -/
theorem compile_upload_capability_and_prereq_gate (env : PhaseEnv)
    (l1 : List Component) (c : Component) (l2 : List Component)
    (hcOk : ∀ x ∈ l1, x.compilable = true →
      env.prereq x = true ∧ env.compileRes x = true)
    (huOk : ∀ x ∈ l1, x.uploadable = true →
      env.prereq x = true ∧ env.uploadRes x = true)
    (hcCap : c.compilable = true) (huCap : c.uploadable = true)
    (hpre : env.prereq c = false) :
    compileList env (l1 ++ c :: l2) =
      (compileOkCalls l1 ++ [Call.checkPrereq c.id], Outcome.ok false) ∧
    uploadList env (l1 ++ c :: l2) =
      (uploadOkCalls l1 ++ [Call.checkPrereq c.id], Outcome.ok false) ∧
    (∀ l : List Component,
      (∀ x ∈ l, x.compilable = true →
        env.prereq x = true ∧ env.compileRes x = true) →
      compileList env l = (compileOkCalls l, Outcome.ok true)) ∧
    (∀ l : List Component,
      (∀ x ∈ l, x.uploadable = true →
        env.prereq x = true ∧ env.uploadRes x = true) →
      uploadList env l = (uploadOkCalls l, Outcome.ok true)) := by
  refine ⟨?_, ?_, ?_, ?_⟩
  · rw [compileList_append_ok env l1 _ hcOk]
    simp [compileList, hcCap, hpre]
  · rw [uploadList_append_ok env l1 _ huOk]
    simp [uploadList, huCap, hpre]
  · intro l hl
    have h := compileList_append_ok env l [] hl
    simpa [compileList] using h
  · intro l hl
    have h := uploadList_append_ok env l [] hl
    simpa [uploadList] using h

/-- An environment whose prerequisite checks all fail. -/
def gateFailEnv : PhaseEnv := { prereq := fun _ => false }

/-- A component that is both compilable and uploadable. -/
def bothCapComponent : Component :=
  { componentType := ComponentType.Device, id := "dev1", name := "Device",
    compilable := true, uploadable := true }

/-- Witness for C5: the failing prerequisite of the single eligible
component stops both phases with false right after its check. -/
theorem compile_upload_capability_and_prereq_gate_witness :
    compileList gateFailEnv ([] ++ bothCapComponent :: []) =
      (compileOkCalls [] ++ [Call.checkPrereq "dev1"], Outcome.ok false) ∧
    uploadList gateFailEnv ([] ++ bothCapComponent :: []) =
      (uploadOkCalls [] ++ [Call.checkPrereq "dev1"], Outcome.ok false) :=
  ⟨(compile_upload_capability_and_prereq_gate gateFailEnv []
      bothCapComponent [] (by simp) (by simp) rfl rfl rfl).1,
   (compile_upload_capability_and_prereq_gate gateFailEnv []
      bothCapComponent [] (by simp) (by simp) rfl rfl rfl).2.1⟩

/-- An environment whose login/session check reports failure while the
resource group and subscription id resolve and everything else succeeds. -/
def failedLoginEnv : PhaseEnv := { prereq := fun _ => true, loginOk := false }

/-- A provisionable component used by the provision scenarios. -/
def provisionableHub : Component :=
  { componentType := ComponentType.IoTHub, id := "hub", name := "IoT Hub",
    provisionable := true }

/-- C7 counterexample: with the login check reporting failure but the
resource group and subscription id resolving, provision() does not return
false — it invokes the component provision action and returns true, because
the source discards the boolean result of checkAzureLogin (line 372). -/
theorem provision_ignores_login_counterexample :
    failedLoginEnv.loginOk = false ∧
    (provision failedLoginEnv [provisionableHub]).2 = Outcome.ok true ∧
    Call.provisionAct "hub" ∈ (provision failedLoginEnv [provisionableHub]).1 := by
  decide

/-- C7 (amended): with devicePath set, at least one provisionable component
and all eligible prerequisite checks passing, provision() performs the login
check call and the resource-group resolution after the prerequisite pass and
before any component provision action (the trace prefix before those two
calls contains no provision action), and a missing resource group or
subscription id makes it return false with no provision action invoked at
all.  Unlike the original claim, the boolean result of the login check is
discarded by the code, so a failed login check by itself does not abort. -/
theorem provision_gates (env : PhaseEnv) (componentList : List Component)
    (dp : String)
    (hdp : env.devicePath = some dp)
    (hp : ∀ x ∈ componentList, x.provisionable = true → env.prereq x = true)
    (hne : componentList.filter (fun c => c.provisionable) ≠ []) :
    (∃ tail, (provision env componentList).1 =
      (componentList.filter (fun c => c.provisionable)).map
        (fun c => Call.checkPrereq c.id) ++
      [Call.azureLoginCheck, Call.getResourceGroup] ++ tail) ∧
    (∀ i, Call.provisionAct i ∉
      (componentList.filter (fun c => c.provisionable)).map
        (fun c => Call.checkPrereq c.id)) ∧
    ((env.resourceGroup = none ∨ env.subscriptionId = none) →
      (provision env componentList).2 = Outcome.ok false ∧
      ∀ i, Call.provisionAct i ∉ (provision env componentList).1) := by
  have hu := provision_unfold env componentList dp hdp hp hne
  refine ⟨?_, ?_, ?_⟩
  · cases hrg : env.resourceGroup <;> cases hsub : env.subscriptionId <;>
      rw [hrg, hsub] at hu <;> simp only [hu]
    · exact ⟨[], by simp⟩
    · exact ⟨[], by simp⟩
    · exact ⟨[], by simp⟩
    · exact ⟨(provisionLoop env componentList).1, rfl⟩
  · intro i
    simp [List.mem_map]
  · intro hmiss
    have hred : provision env componentList =
        ((componentList.filter (fun c => c.provisionable)).map
            (fun c => Call.checkPrereq c.id) ++
          [Call.azureLoginCheck, Call.getResourceGroup],
         Outcome.ok false) := by
      rcases hmiss with hrg | hsub
      · rw [hrg] at hu
        simpa using hu
      · cases hrg : env.resourceGroup <;> rw [hrg, hsub] at hu <;>
          simpa using hu
    rw [hred]
    refine ⟨rfl, ?_⟩
    intro i
    simp [List.mem_map, List.mem_append]

/-- An environment in which the resource group fails to resolve. -/
def noResourceGroupEnv : PhaseEnv :=
  { prereq := fun _ => true, resourceGroup := none }

/-- Witness for the amended C7: with the resource group missing, provision
returns false having performed only the prerequisite pass, the login check
and the resource-group query. -/
theorem provision_gates_witness :
    (∃ tail, (provision noResourceGroupEnv [provisionableHub]).1 =
      ([provisionableHub].filter (fun c => c.provisionable)).map
        (fun c => Call.checkPrereq c.id) ++
      [Call.azureLoginCheck, Call.getResourceGroup] ++ tail) ∧
    (∀ i, Call.provisionAct i ∉
      ([provisionableHub].filter (fun c => c.provisionable)).map
        (fun c => Call.checkPrereq c.id)) ∧
    ((noResourceGroupEnv.resourceGroup = none ∨
        noResourceGroupEnv.subscriptionId = none) →
      (provision noResourceGroupEnv [provisionableHub]).2 = Outcome.ok false ∧
      ∀ i, Call.provisionAct i ∉
        (provision noResourceGroupEnv [provisionableHub]).1) :=
  provision_gates noResourceGroupEnv [provisionableHub] "Device" rfl
    (by decide) (by decide)

/-- An environment whose provision actions fail while everything else
succeeds. -/
def provisionFailEnv : PhaseEnv :=
  { prereq := fun _ => true, provisionRes := fun _ => false }

/-- C8 counterexample: a component provision action returning false does not
make the driver throw — provision() shows a warning and returns false
(lines 406-409), contradicting the claim that every phase re-raises a false
action result as a thrown error. -/
theorem provision_action_false_not_thrown_counterexample :
    (provision provisionFailEnv [provisionableHub]).2 = Outcome.ok false := by
  decide

/-- C8 (amended): when the first failing component action is reached (all
earlier eligible components confirmed and succeeded, every eligible
component passing the prerequisite pass, resource group and subscription id
resolved where required), compile() and upload() re-raise the false result
as a thrown error naming the action but not the failing component (the
message is a fixed string independent of the component), deploy() throws an
error naming both the action and the component, and provision() does not
throw: it shows a warning and returns false.  In every phase the trace ends
with the failing action: no later component is acted on. -/
theorem phase_action_failure_behaviour (env : PhaseEnv)
    (l1 : List Component) (c : Component) (l2 : List Component)
    (dp rg sub : String)
    (hdp : env.devicePath = some dp)
    (hrg : env.resourceGroup = some rg)
    (hsub : env.subscriptionId = some sub)
    (hcOk : ∀ x ∈ l1, x.compilable = true →
      env.prereq x = true ∧ env.compileRes x = true)
    (hcCap : c.compilable = true) (hcPre : env.prereq c = true)
    (hcFail : env.compileRes c = false)
    (huOk : ∀ x ∈ l1, x.uploadable = true →
      env.prereq x = true ∧ env.uploadRes x = true)
    (huCap : c.uploadable = true) (huFail : env.uploadRes c = false)
    (hpAll : ∀ x ∈ l1 ++ c :: l2, x.provisionable = true →
      env.prereq x = true)
    (hpConf : ∀ x ∈ l1, x.provisionable = true →
      env.confirmProvision x = true ∧ env.provisionRes x = true)
    (hpCap : c.provisionable = true)
    (hpConfC : env.confirmProvision c = true)
    (hpFail : env.provisionRes c = false)
    (hdAll : ∀ x ∈ l1 ++ c :: l2, x.deployable = true →
      env.prereq x = true)
    (hdConf : ∀ x ∈ l1, x.deployable = true →
      env.confirmDeploy x = true ∧ env.deployRes x = true)
    (hdCap : c.deployable = true)
    (hdConfC : env.confirmDeploy c = true)
    (hdFail : env.deployRes c = false) :
    compileList env (l1 ++ c :: l2) =
      (compileOkCalls l1 ++ [Call.checkPrereq c.id, Call.compileAct c.id],
        Outcome.thrown compileFailMessage) ∧
    uploadList env (l1 ++ c :: l2) =
      (uploadOkCalls l1 ++ [Call.checkPrereq c.id, Call.uploadAct c.id],
        Outcome.thrown uploadFailMessage) ∧
    provision env (l1 ++ c :: l2) =
      (((l1 ++ c :: l2).filter (fun x => x.provisionable)).map
          (fun x => Call.checkPrereq x.id) ++
        [Call.azureLoginCheck, Call.getResourceGroup] ++
        (provisionOkCalls l1 ++ [Call.quickPick c.id, Call.provisionAct c.id]),
       Outcome.ok false) ∧
    deploy env (l1 ++ c :: l2) =
      (((l1 ++ c :: l2).filter (fun x => x.deployable)).map
          (fun x => Call.checkPrereq x.id) ++
        [Call.azureLoginCheck] ++
        (deployOkCalls l1 ++ [Call.quickPick c.id, Call.deployAct c.id]),
       Outcome.thrown (deployFailMessage c.name)) := by
  have hpne : (l1 ++ c :: l2).filter (fun x => x.provisionable) ≠ [] :=
    List.ne_nil_of_mem (List.mem_filter.mpr
      ⟨List.mem_append_right l1 (List.mem_cons_self c l2), hpCap⟩)
  have hdne : (l1 ++ c :: l2).filter (fun x => x.deployable) ≠ [] :=
    List.ne_nil_of_mem (List.mem_filter.mpr
      ⟨List.mem_append_right l1 (List.mem_cons_self c l2), hdCap⟩)
  refine ⟨?_, ?_, ?_, ?_⟩
  · rw [compileList_append_ok env l1 _ hcOk]
    simp [compileList, hcCap, hcPre, hcFail]
  · rw [uploadList_append_ok env l1 _ huOk]
    simp [uploadList, huCap, hcPre, huFail]
  · have hu := provision_unfold env (l1 ++ c :: l2) dp hdp hpAll hpne
    rw [hrg, hsub] at hu
    rw [hu, provisionLoop_append_ok env l1 _ hpConf]
    simp [provisionLoop, hpCap, hpConfC, hpFail]
  · have hu := deploy_unfold env (l1 ++ c :: l2) hdAll hdne
    rw [hu, deployLoop_append_ok env l1 _ hdConf]
    simp [deployLoop, hdCap, hdConfC, hdFail]

/-- A component holding all four capabilities. -/
def allCapComponent : Component :=
  { componentType := ComponentType.AzureFunctions, id := "all1",
    name := "All Capable", compilable := true, uploadable := true,
    provisionable := true, deployable := true }

/-- An environment in which every phase action fails while prerequisites and
confirmations succeed. -/
def allActionsFailEnv : PhaseEnv :=
  { prereq := fun _ => true
    compileRes := fun _ => false
    uploadRes := fun _ => false
    provisionRes := fun _ => false
    deployRes := fun _ => false }

/-- Witness for the amended C8 at a one-component registry whose every
action fails. -/
theorem phase_action_failure_behaviour_witness :
    compileList allActionsFailEnv ([] ++ allCapComponent :: []) =
      (compileOkCalls [] ++
        [Call.checkPrereq "all1", Call.compileAct "all1"],
        Outcome.thrown compileFailMessage) ∧
    uploadList allActionsFailEnv ([] ++ allCapComponent :: []) =
      (uploadOkCalls [] ++
        [Call.checkPrereq "all1", Call.uploadAct "all1"],
        Outcome.thrown uploadFailMessage) ∧
    provision allActionsFailEnv ([] ++ allCapComponent :: []) =
      ((([] ++ allCapComponent :: []).filter
          (fun x : Component => x.provisionable)).map
          (fun x : Component => Call.checkPrereq x.id) ++
        [Call.azureLoginCheck, Call.getResourceGroup] ++
        (provisionOkCalls [] ++
          [Call.quickPick "all1", Call.provisionAct "all1"]),
       Outcome.ok false) ∧
    deploy allActionsFailEnv ([] ++ allCapComponent :: []) =
      ((([] ++ allCapComponent :: []).filter
          (fun x : Component => x.deployable)).map
          (fun x : Component => Call.checkPrereq x.id) ++
        [Call.azureLoginCheck] ++
        (deployOkCalls [] ++
          [Call.quickPick "all1", Call.deployAct "all1"]),
       Outcome.thrown (deployFailMessage "All Capable")) :=
  phase_action_failure_behaviour allActionsFailEnv [] allCapComponent []
    "Device" "rg" "sub" rfl rfl rfl (by simp) rfl rfl rfl (by simp) rfl rfl
    (by decide) (by simp) rfl rfl rfl (by decide) (by simp) rfl rfl rfl

end IoTWorkspaceProject
